import Mathlib

/-!
Verification of the Express Entry / MBA eligibility scoring engine.

The definitions below are a shallow embedding of the Python sources
`express_entry.py`, `language_utils.py` and `ucalgary_mba.py`:
dictionaries of four skill levels become the structure `Clb`, the
education enumeration becomes the inductive type `Edu`, raw exam scores
are rationals, and functions that raise `ValueError` return `Except`.
-/

/-- A mapping from the four language skills to a standardized level
(CLB or NCLC).  Embeds the Python `Dict[str, int]` with the four keys
listening / reading / writing / speaking. -/
structure Clb where
  listening : Nat
  reading : Nat
  writing : Nat
  speaking : Nat
deriving DecidableEq, Repr

/-- `min(clb.values())` over the four skills. -/
def minClb (clb : Clb) : Nat :=
  min (min clb.listening clb.reading) (min clb.writing clb.speaking)

/-- The skill dictionary as an association list, in the iteration order
of the Python dict (listening, reading, writing, speaking). -/
def clbToList (clb : Clb) : List (String × Nat) :=
  [("listening", clb.listening), ("reading", clb.reading),
   ("writing", clb.writing), ("speaking", clb.speaking)]

/-- The nine education levels of `EDUCATION_LEVELS` / `EDUCATION_ORDER`. -/
inductive Edu where
  | less_than_secondary
  | secondary
  | one_year_post_secondary
  | two_year_post_secondary
  | bachelor
  | two_or_more
  | masters
  | professional_degree
  | phd
deriving DecidableEq, Repr, Fintype

/-- `EDUCATION_ORDER` from `express_entry.py`. -/
def EDUCATION_ORDER : List Edu :=
  [.less_than_secondary, .secondary, .one_year_post_secondary,
   .two_year_post_secondary, .bachelor, .two_or_more, .masters,
   .professional_degree, .phd]

/-- The Python string naming each education level. -/
def eduStr : Edu → String
  | .less_than_secondary => "less_than_secondary"
  | .secondary => "secondary"
  | .one_year_post_secondary => "one_year_post_secondary"
  | .two_year_post_secondary => "two_year_post_secondary"
  | .bachelor => "bachelor"
  | .two_or_more => "two_or_more"
  | .masters => "masters"
  | .professional_degree => "professional_degree"
  | .phd => "phd"

/-- `EDUCATION_LEVELS` (the accepted education-level strings). -/
def EDUCATION_LEVELS : List String :=
  ["less_than_secondary", "secondary", "one_year_post_secondary",
   "two_year_post_secondary", "bachelor", "two_or_more", "masters",
   "professional_degree", "phd"]

/-- Parse an education-level string to the enumeration; `none` for a
string outside `EDUCATION_LEVELS`. -/
def parseEducation (level : String) : Option Edu :=
  (EDUCATION_ORDER.find? (fun e => eduStr e == level))

/-- `FSW_EDU_POINTS` dictionary. -/
def FSW_EDU_POINTS : Edu → Nat
  | .phd => 25
  | .masters => 23
  | .professional_degree => 23
  | .two_or_more => 22
  | .bachelor => 21
  | .two_year_post_secondary => 19
  | .one_year_post_secondary => 15
  | .secondary => 5
  | .less_than_secondary => 0

/-- `CRS_EDU_POINTS` dictionary. -/
def CRS_EDU_POINTS : Edu → Nat
  | .less_than_secondary => 0
  | .secondary => 30
  | .one_year_post_secondary => 90
  | .two_year_post_secondary => 98
  | .bachelor => 120
  | .two_or_more => 128
  | .masters => 135
  | .professional_degree => 135
  | .phd => 150

/-- `FSW_AGE_POINTS` dictionary (12 points for 18-35, stepping down). -/
def FSW_AGE_POINTS : List (Nat × Nat) :=
  [(18, 12), (19, 12), (20, 12), (21, 12), (22, 12), (23, 12), (24, 12),
   (25, 12), (26, 12), (27, 12), (28, 12), (29, 12), (30, 12), (31, 12),
   (32, 12), (33, 12), (34, 12), (35, 12),
   (36, 11), (37, 10), (38, 9), (39, 8), (40, 7), (41, 6), (42, 5),
   (43, 4), (44, 3), (45, 2), (46, 1), (47, 0)]

/-- `FSW_WORK_POINTS` dictionary. -/
def FSW_WORK_POINTS : List (Nat × Nat) :=
  [(0, 0), (1, 9), (2, 11), (3, 11), (4, 13), (5, 13), (6, 15)]

/-- `CRS_AGE_POINTS` dictionary. -/
def CRS_AGE_POINTS : List (Nat × Nat) :=
  [(17, 0), (18, 99), (19, 105),
   (20, 110), (21, 110), (22, 110), (23, 110), (24, 110), (25, 110),
   (26, 110), (27, 110), (28, 110), (29, 110),
   (30, 105), (31, 99), (32, 94), (33, 88), (34, 83), (35, 77), (36, 72),
   (37, 66), (38, 61), (39, 55), (40, 50), (41, 39), (42, 28), (43, 17),
   (44, 6), (45, 0), (46, 0), (47, 0)]

/-- `FRENCH_THRESHOLDS`. -/
def FRENCH_THRESHOLDS : List Nat := [5, 7, 9]

/-- The user-input constant `AGE` from the configuration block. -/
def AGE : Nat := 23

/-- The user-input constant `EDUCATION` from the configuration block. -/
def EDUCATION : Edu := .bachelor

/-! ## Language conversion (`_convert_with_table` and friends) -/

/-- `_convert_with_table`: scan the (threshold, level) pairs in order and
return the level of the first threshold that the score meets or exceeds,
else 0. -/
def convert_with_table (score : ℚ) : List (ℚ × Nat) → Nat
  | [] => 0
  | (threshold, clb) :: rest =>
      if threshold ≤ score then clb else convert_with_table score rest

/-- `IELTS_CLB_TABLE["listening"]`. -/
def IELTS_CLB_listening : List (ℚ × Nat) :=
  [(8.5, 10), (8.0, 9), (7.5, 8), (6.0, 7), (5.5, 6), (5.0, 5), (4.5, 4)]

/-- `IELTS_CLB_TABLE["reading"]`. -/
def IELTS_CLB_reading : List (ℚ × Nat) :=
  [(8.0, 10), (7.0, 9), (6.5, 8), (6.0, 7), (5.0, 6), (4.0, 5), (3.5, 4)]

/-- `IELTS_CLB_TABLE["writing"]`. -/
def IELTS_CLB_writing : List (ℚ × Nat) :=
  [(7.5, 10), (7.0, 9), (6.5, 8), (6.0, 7), (5.5, 6), (5.0, 5), (4.0, 4)]

/-- `IELTS_CLB_TABLE["speaking"]`. -/
def IELTS_CLB_speaking : List (ℚ × Nat) :=
  [(7.5, 10), (7.0, 9), (6.5, 8), (6.0, 7), (5.5, 6), (5.0, 5), (4.0, 4)]

/-- `TCF_NCLC_TABLE["listening"]`. -/
def TCF_NCLC_listening : List (ℚ × Nat) :=
  [(549, 10), (523, 9), (503, 8), (458, 7), (398, 6), (369, 5), (331, 4)]

/-- `TCF_NCLC_TABLE["reading"]`. -/
def TCF_NCLC_reading : List (ℚ × Nat) :=
  [(549, 10), (524, 9), (499, 8), (453, 7), (406, 6), (375, 5), (342, 4)]

/-- `TCF_NCLC_TABLE["writing"]`. -/
def TCF_NCLC_writing : List (ℚ × Nat) :=
  [(16, 10), (14, 9), (12, 8), (10, 7), (9, 6), (7, 5), (6, 4)]

/-- `TCF_NCLC_TABLE["speaking"]`. -/
def TCF_NCLC_speaking : List (ℚ × Nat) :=
  [(16, 10), (14, 9), (12, 8), (10, 7), (9, 6), (7, 5), (6, 4)]

/-- `scores.get(skill, 0.0)` on a raw-score dictionary. -/
def getScore (scores : List (String × ℚ)) (skill : String) : ℚ :=
  (scores.lookup skill).getD 0

/-- `zero_clb`: the all-zero skill mapping. -/
def zero_clb : Clb := ⟨0, 0, 0, 0⟩

/-- `ielts_to_clb`: convert raw IELTS band scores to CLB levels per skill,
defaulting a missing skill score to 0.0. -/
def ielts_to_clb (scores : List (String × ℚ)) : Clb :=
  { listening := convert_with_table (getScore scores "listening") IELTS_CLB_listening
    reading := convert_with_table (getScore scores "reading") IELTS_CLB_reading
    writing := convert_with_table (getScore scores "writing") IELTS_CLB_writing
    speaking := convert_with_table (getScore scores "speaking") IELTS_CLB_speaking }

/-- `tcf_to_nclc`: convert raw TCF scores to NCLC levels per skill. -/
def tcf_to_nclc (scores : List (String × ℚ)) : Clb :=
  { listening := convert_with_table (getScore scores "listening") TCF_NCLC_listening
    reading := convert_with_table (getScore scores "reading") TCF_NCLC_reading
    writing := convert_with_table (getScore scores "writing") TCF_NCLC_writing
    speaking := convert_with_table (getScore scores "speaking") TCF_NCLC_speaking }

/-- The English skill-level mapping used for scoring in `render`:
the converted exam result when the exam is done, otherwise all zeros. -/
def english_clb_used (exam_done : Bool) (scores : List (String × ℚ)) : Clb :=
  if exam_done then ielts_to_clb scores else zero_clb

/-- The French skill-level mapping used for scoring in `render`. -/
def french_clb_used (exam_done : Bool) (scores : List (String × ℚ)) : Clb :=
  if exam_done then tcf_to_nclc scores else zero_clb

/-! ## FSW eligibility -/

/-- `fsw_age`: dictionary lookup with default 0. -/
def fsw_age (age : Nat) : Nat := (FSW_AGE_POINTS.lookup age).getD 0

/-- `fsw_education` (the level is already a member of the enumeration,
so the `ValueError` branch of the source cannot fire here). -/
def fsw_education (level : Edu) : Nat := FSW_EDU_POINTS level

/-- Per-skill FSW primary-language points. -/
def fswPrimarySkillPoints (level : Nat) : Nat :=
  if 9 ≤ level then 6
  else if level = 8 then 5
  else if level = 7 then 4
  else 0

/-- `fsw_language_primary`: per-skill points summed, capped at 24. -/
def fsw_language_primary (clb : Clb) : Nat :=
  min (fswPrimarySkillPoints clb.listening + fswPrimarySkillPoints clb.reading
       + fswPrimarySkillPoints clb.writing + fswPrimarySkillPoints clb.speaking) 24

/-- `fsw_language_secondary`: one point per skill at level 5+, capped at 4. -/
def fsw_language_secondary (clb : Clb) : Nat :=
  min ((if 5 ≤ clb.listening then 1 else 0) + (if 5 ≤ clb.reading then 1 else 0)
       + (if 5 ≤ clb.writing then 1 else 0) + (if 5 ≤ clb.speaking then 1 else 0)) 4

/-- `fsw_work_experience`. -/
def fsw_work_experience (years : Nat) : Nat :=
  if years = 0 then 0
  else if 6 ≤ years then (FSW_WORK_POINTS.lookup 6).getD 0
  else if 4 ≤ years then (FSW_WORK_POINTS.lookup 4).getD 0
  else if 2 ≤ years then (FSW_WORK_POINTS.lookup 2).getD 0
  else (FSW_WORK_POINTS.lookup 1).getD 0

/-- `fsw_adaptability`. -/
def fsw_adaptability (relative_in_canada : Bool) : Nat :=
  if relative_in_canada then 5 else 0

/-- The dictionary returned by `fsw_eligibility`. -/
structure FSWResult where
  total : Nat
  pass : Bool
  age : Nat
  education : Nat
  language_primary : Nat
  language_secondary : Nat
  foreign_work : Nat
  arranged_employment : Nat
  adaptability : Nat
  issues : List String
deriving Repr, DecidableEq

/-- `fsw_eligibility`. -/
def fsw_eligibility (age : Nat) (education : Edu) (primary_clb secondary_clb : Clb)
    (foreign_work_years : Nat) (relative_in_canada : Bool) : FSWResult :=
  let issues : List String :=
    (if minClb primary_clb < 7
     then ["Primary language must be CLB 7+ in all abilities."] else [])
    ++ (if foreign_work_years < 1
        then ["At least 1 year of continuous full-time (or equivalent) foreign work is required."]
        else [])
  let age_pts := fsw_age age
  let edu_pts := fsw_education education
  let lang_primary_pts := fsw_language_primary primary_clb
  let lang_secondary_pts := fsw_language_secondary secondary_clb
  let work_pts := fsw_work_experience foreign_work_years
  let arranged_employment := 0
  let adaptability := fsw_adaptability relative_in_canada
  let total := age_pts + edu_pts + lang_primary_pts + lang_secondary_pts
      + work_pts + arranged_employment + adaptability
  { total := total
    pass := decide (67 ≤ total) && issues.isEmpty
    age := age_pts
    education := edu_pts
    language_primary := lang_primary_pts
    language_secondary := lang_secondary_pts
    foreign_work := work_pts
    arranged_employment := arranged_employment
    adaptability := adaptability
    issues := issues }

/-! ## CRS core -/

/-- `crs_age`: 0 outside [17, 47], else the dictionary value (with the
source's fallback to the value at the greatest key below the age). -/
def crs_age (age : Nat) : Nat :=
  if age < 17 then 0
  else if 47 < age then 0
  else match CRS_AGE_POINTS.lookup age with
    | some pts => pts
    | none => ((((CRS_AGE_POINTS.filter (fun p => p.1 ≤ age)).map Prod.snd).getLast?).getD 0)

/-- `crs_education` on an in-range level (the `ValueError` branch is
covered by `crs_education_str` below). -/
def crs_education (level : Edu) : Nat := CRS_EDU_POINTS level

/-- `crs_education` on the raw string input: an unrecognized level is a
hard error, a recognized one gives the table value. -/
def crs_education_str (level : String) : Except String Nat :=
  if level ∈ EDUCATION_LEVELS then
    .ok ((parseEducation level).elim 0 CRS_EDU_POINTS)
  else .error ("Invalid education level: " ++ level)

/-- Per-skill CRS primary-language points. -/
def crsPrimarySkillPoints (level : Nat) : Nat :=
  if 10 ≤ level then 34
  else if level = 9 then 31
  else if level = 8 then 23
  else if level = 7 then 17
  else if level = 6 then 9
  else if level = 5 then 6
  else 0

/-- `crs_language_primary`. -/
def crs_language_primary (clb : Clb) : Nat :=
  crsPrimarySkillPoints clb.listening + crsPrimarySkillPoints clb.reading
  + crsPrimarySkillPoints clb.writing + crsPrimarySkillPoints clb.speaking

/-- Per-skill CRS secondary-language points. -/
def crsSecondarySkillPoints (level : Nat) : Nat :=
  if 9 ≤ level then 6
  else if 7 ≤ level then 3
  else if 5 ≤ level then 1
  else 0

/-- `crs_language_secondary`: per-skill points summed, capped at 24. -/
def crs_language_secondary (clb : Clb) : Nat :=
  min (crsSecondarySkillPoints clb.listening + crsSecondarySkillPoints clb.reading
       + crsSecondarySkillPoints clb.writing + crsSecondarySkillPoints clb.speaking) 24

/-- `crs_foreign_work`: standalone foreign work carries no core CRS
points; the source keeps the function and returns 0. -/
def crs_foreign_work (_years : Nat) : Nat := 0

/-! ## Skill transferability -/

/-- `_has_all_primary_at_least`. -/
def has_all_primary_at_least (clb : Clb) (threshold : Nat) : Bool :=
  threshold ≤ minClb clb

/-- The education-tier branch of `transfer_education_language`, given the
precomputed `strong` flag (all primary skills at level 9+). -/
def transferTier (education : Edu) (strong : Bool) : Nat :=
  if education = .less_than_secondary ∨ education = .secondary then 0
  else if education = .one_year_post_secondary ∨ education = .two_year_post_secondary then
    if strong then 25 else 13
  else if education = .bachelor ∨ education = .two_or_more ∨ education = .masters
      ∨ education = .professional_degree ∨ education = .phd then
    if strong then 50 else 25
  else 0

/-- `transfer_education_language`. -/
def transfer_education_language (education : Edu) (primary_clb : Clb) : Nat :=
  if has_all_primary_at_least primary_clb 7 then
    transferTier education (has_all_primary_at_least primary_clb 9)
  else 0

/-- `transfer_foreign_work_language`. -/
def transfer_foreign_work_language (foreign_years : Nat) (primary_clb : Clb) : Nat :=
  if foreign_years < 1 then 0
  else
    let strong := has_all_primary_at_least primary_clb 9
    if has_all_primary_at_least primary_clb 7 then
      if 3 ≤ foreign_years then (if strong then 50 else 25)
      else if 1 ≤ foreign_years then (if strong then 25 else 13)
      else 0
    else 0

/-- `skill_transferability`: sum of the two transfer factors, capped at 100. -/
def skill_transferability (education : Edu) (foreign_years : Nat) (primary_clb : Clb) : Nat :=
  min (transfer_education_language education primary_clb
       + transfer_foreign_work_language foreign_years primary_clb) 100

/-! ## Bonus factors -/

/-- `job_offer_points`: 200 for "teer00", 50 for "teer123", otherwise 0
(no error branch exists in the source). -/
def job_offer_points (job_offer : Option String) : Nat :=
  if job_offer = some "teer00" then 200
  else if job_offer = some "teer123" then 50
  else 0

/-- `bonus_points` (the total; the detail dictionary lists the same
four addends). -/
def bonus_points (primary_clb french_clb : Clb) (pnp canadian_education : Bool)
    (job_offer : Option String) : Nat :=
  (if pnp then 600 else 0)
  + (if 7 ≤ minClb french_clb then
       (if has_all_primary_at_least primary_clb 5 then 50 else 25)
     else 0)
  + (if canadian_education then 15 else 0)
  + job_offer_points job_offer

/-! ## CRS composition and deltas -/

/-- The numeric fields of the `CRSResult` dataclass. -/
structure CRSResult where
  total : Nat
  core_total : Nat
  transfer_total : Nat
  bonus_total : Nat
deriving Repr, DecidableEq

/-- `compute_crs`: the education argument defaults to the configuration
constant `EDUCATION` when absent, and the age is the configuration
constant `AGE`, exactly as in the source. -/
def compute_crs (english_clb french_clb : Clb) (foreign_years : Nat)
    (pnp canadian_education : Bool) (job_offer : Option String)
    (education : Option Edu) : CRSResult :=
  let edu_level := education.getD EDUCATION
  let age_pts := crs_age AGE
  let edu_pts := crs_education edu_level
  let lang_primary_pts := crs_language_primary english_clb
  let lang_secondary_pts := crs_language_secondary french_clb
  let foreign_pts := crs_foreign_work foreign_years
  let core_total := age_pts + edu_pts + lang_primary_pts + lang_secondary_pts + foreign_pts
  let transfer_total := skill_transferability edu_level foreign_years english_clb
  let bonus_total := bonus_points english_clb french_clb pnp canadian_education job_offer
  { total := core_total + transfer_total + bonus_total
    core_total := core_total
    transfer_total := transfer_total
    bonus_total := bonus_total }

/-- `next_clb_target`: the next standardized level to aim for and the
skills below it. -/
def next_clb_target (current : Clb) (max_target : Nat) : Nat × List String :=
  let min_level := minClb current
  if max_target ≤ min_level then (min_level, [])
  else
    let target := min (min_level + 1) max_target
    (target, ((clbToList current).filter (fun p => p.2 < target)).map Prod.fst)

/-- `next_relevant_french_target`: the first policy threshold (5, 7, 9)
not yet met by the minimum French level. -/
def firstUnmet (min_level : Nat) : List Nat → Option Nat
  | [] => none
  | t :: ts => if min_level < t then some t else firstUnmet min_level ts

/-- `next_relevant_french_target`. -/
def next_relevant_french_target (french_clb : Clb) : Option Nat × List String :=
  match firstUnmet (minClb french_clb) FRENCH_THRESHOLDS with
  | some threshold =>
      (some threshold, ((clbToList french_clb).filter (fun p => p.2 < threshold)).map Prod.fst)
  | none => (none, [])

/-- `next_education_level`: successor in `EDUCATION_ORDER`, `none` at
the top. -/
def next_education_level (current : Edu) : Option Edu :=
  let idx := EDUCATION_ORDER.indexOf current
  if EDUCATION_ORDER.length - 1 ≤ idx then none
  else EDUCATION_ORDER[idx + 1]?

/-- `{ skill: max(level, target) for ... }` — raise every skill below
the target up to it. -/
def boostClb (clb : Clb) (target : Nat) : Clb :=
  { listening := max clb.listening target
    reading := max clb.reading target
    writing := max clb.writing target
    speaking := max clb.speaking target }

/-- The dictionary returned by the delta functions. -/
structure DeltaResult where
  delta : Int
  new_crs : Nat
  condition : String
deriving Repr

/-- `delta_english_next_clb`. -/
def delta_english_next_clb (english_clb french_clb : Clb) (foreign_years : Nat)
    (pnp canadian_education : Bool) (job_offer : Option String) : DeltaResult :=
  let ts := next_clb_target english_clb 10
  if ts.2.isEmpty then
    { delta := 0
      new_crs := (compute_crs english_clb french_clb foreign_years pnp canadian_education job_offer none).total
      condition := "English already at max CLB 10." }
  else
    let boosted := boostClb english_clb ts.1
    let current_total := (compute_crs english_clb french_clb foreign_years pnp canadian_education job_offer none).total
    let new_total := (compute_crs boosted french_clb foreign_years pnp canadian_education job_offer none).total
    { delta := (new_total : Int) - (current_total : Int)
      new_crs := new_total
      condition := "Reach CLB " ++ toString ts.1 ++ " in English for "
        ++ String.intercalate ", " ts.2 }

/-- `delta_french_next_clb`. -/
def delta_french_next_clb (english_clb french_clb : Clb) (foreign_years : Nat)
    (pnp canadian_education : Bool) (job_offer : Option String) : DeltaResult :=
  match next_relevant_french_target french_clb with
  | (none, _) =>
    { delta := 0
      new_crs := (compute_crs english_clb french_clb foreign_years pnp canadian_education job_offer none).total
      condition := "French already at max NCLC 10." }
  | (some target, skills) =>
    let boosted := boostClb french_clb target
    let current_total := (compute_crs english_clb french_clb foreign_years pnp canadian_education job_offer none).total
    let new_total := (compute_crs english_clb boosted foreign_years pnp canadian_education job_offer none).total
    { delta := (new_total : Int) - (current_total : Int)
      new_crs := new_total
      condition := "Reach NCLC " ++ toString target ++ " in French for "
        ++ String.intercalate ", " skills }

/-- `delta_education_next_level`. -/
def delta_education_next_level (education : Edu) (english_clb french_clb : Clb)
    (foreign_years : Nat) (pnp canadian_education : Bool)
    (job_offer : Option String) : DeltaResult :=
  let current_total := (compute_crs english_clb french_clb foreign_years pnp canadian_education job_offer (some education)).total
  match next_education_level education with
  | none =>
    { delta := 0
      new_crs := current_total
      condition := "Education already at highest level (phd)." }
  | some target_level =>
    let new_total := (compute_crs english_clb french_clb foreign_years pnp canadian_education job_offer (some target_level)).total
    { delta := (new_total : Int) - (current_total : Int)
      new_crs := new_total
      condition := "Complete education upgrade: "
        ++ (eduStr education).replace "_" " " ++ " -> "
        ++ (eduStr target_level).replace "_" " " }

/-- `delta_plus_one_year_work`. -/
def delta_plus_one_year_work (english_clb french_clb : Clb) (foreign_years : Nat)
    (pnp canadian_education : Bool) (job_offer : Option String) : DeltaResult :=
  let current_total := (compute_crs english_clb french_clb foreign_years pnp canadian_education job_offer none).total
  if 3 ≤ foreign_years then
    { delta := 0
      new_crs := current_total
      condition := "Foreign work already maxed for CRS (3+ years)" }
  else
    let new_years := foreign_years + 1
    let new_total := (compute_crs english_clb french_clb new_years pnp canadian_education job_offer none).total
    { delta := (new_total : Int) - (current_total : Int)
      new_crs := new_total
      condition := "Accumulate " ++ toString new_years ++ " years foreign work" }

/-- `delta_pnp`: the module-level `CANADIAN_EDUCATION` flag it reads is
passed explicitly; the current total is computed with `pnp = False`
regardless of the baseline's own flag, exactly as in the source. -/
def delta_pnp (CANADIAN_EDUCATION : Bool) (english_clb french_clb : Clb)
    (foreign_years : Nat) (job_offer : Option String) : DeltaResult :=
  let current_total := (compute_crs english_clb french_clb foreign_years false CANADIAN_EDUCATION job_offer none).total
  let new_total := (compute_crs english_clb french_clb foreign_years true CANADIAN_EDUCATION job_offer none).total
  { delta := (new_total : Int) - (current_total : Int)
    new_crs := new_total
    condition := "Secure a provincial nomination (600 pts)" }

/-- `delta_canadian_education`: the current total is computed with
`canadian_education = False` regardless of the baseline's own flag. -/
def delta_canadian_education (english_clb french_clb : Clb) (foreign_years : Nat)
    (pnp : Bool) (job_offer : Option String) : DeltaResult :=
  let current_total := (compute_crs english_clb french_clb foreign_years pnp false job_offer none).total
  let new_total := (compute_crs english_clb french_clb foreign_years pnp true job_offer none).total
  { delta := (new_total : Int) - (current_total : Int)
    new_crs := new_total
    condition := "Complete eligible Canadian education (2+ years)" }

/-! ## UCalgary MBA english check (`ucalgary_mba.py`) -/

/-- `IELTS_COMPONENT_MIN`. -/
def IELTS_COMPONENT_MIN : ℚ := 6.0

/-- `english_ok` from `ucalgary_mba.py`: nativeness waives the check;
otherwise the exam must be taken, bands must be present, and every
supplied band must reach the component minimum. -/
def english_ok (native exam_done : Bool) (bands : List (String × ℚ)) : Bool × String :=
  if native then (true, "Waived (native English)")
  else if !exam_done then (false, "English exam not taken")
  else if bands.isEmpty then
    (false, "IELTS band scores missing (need >= 6.0 in all four skills)")
  else
    let too_low := bands.filter (fun p => p.2 < IELTS_COMPONENT_MIN)
    if !too_low.isEmpty then
      (false, "IELTS bands below 6.0: "
        ++ String.intercalate ", " (too_low.map (fun p => p.1 ++ ":" ++ toString p.2)))
    else (true, "IELTS meets minimums (bands only, no overall required)")

/-! ## Helper definitions and lemmas for the theorems below -/

/-- Position of a level in the fixed 9-level education ordering. -/
def eduIdx (e : Edu) : Nat := EDUCATION_ORDER.indexOf e

/-- Pointwise order on skill-level mappings. -/
def clbLE (c d : Clb) : Prop :=
  c.listening ≤ d.listening ∧ c.reading ≤ d.reading
  ∧ c.writing ≤ d.writing ∧ c.speaking ≤ d.speaking

/-- Unfolding of the total of `compute_crs`. -/
theorem compute_crs_total_eq (e f : Clb) (fy : Nat) (pnp ce : Bool)
    (job : Option String) (edu : Option Edu) :
    (compute_crs e f fy pnp ce job edu).total
      = crs_age AGE + crs_education (edu.getD EDUCATION)
        + crs_language_primary e + crs_language_secondary f + crs_foreign_work fy
        + skill_transferability (edu.getD EDUCATION) fy e
        + bonus_points e f pnp ce job := rfl

theorem minClb_le_listening (c : Clb) : minClb c ≤ c.listening := by
  unfold minClb; omega

theorem minClb_le_reading (c : Clb) : minClb c ≤ c.reading := by
  unfold minClb; omega

theorem minClb_le_writing (c : Clb) : minClb c ≤ c.writing := by
  unfold minClb; omega

theorem minClb_le_speaking (c : Clb) : minClb c ≤ c.speaking := by
  unfold minClb; omega

theorem minClb_mono {c d : Clb} (h : clbLE c d) : minClb c ≤ minClb d := by
  obtain ⟨h1, h2, h3, h4⟩ := h; unfold minClb; omega

theorem boost_min_self (c : Clb) : boostClb c (minClb c) = c := by
  cases c with
  | mk l r w s =>
    simp only [boostClb, minClb, Clb.mk.injEq]
    omega

theorem clbLE_boost (c : Clb) (t : Nat) : clbLE c (boostClb c t) := by
  refine ⟨?_, ?_, ?_, ?_⟩ <;> simp [boostClb]

/-- If `next_clb_target` reports no gap skills, the returned target is the
current minimum level (the saturation branch was taken). -/
theorem next_clb_target_empty (c : Clb) (h : ((next_clb_target c 10).2).isEmpty = true) :
    (next_clb_target c 10).1 = minClb c := by
  by_cases h10 : 10 ≤ minClb c
  · simp [next_clb_target, h10]
  · exfalso
    simp only [next_clb_target, h10, if_false, List.isEmpty_iff, List.map_eq_nil_iff,
      List.filter_eq_nil_iff] at h
    have hl := h ("listening", c.listening) (by simp [clbToList])
    have hr := h ("reading", c.reading) (by simp [clbToList])
    have hw := h ("writing", c.writing) (by simp [clbToList])
    have hs := h ("speaking", c.speaking) (by simp [clbToList])
    simp only [decide_eq_true_eq] at hl hr hw hs
    unfold minClb at *
    omega

theorem crsPrimarySkillPoints_mono {a b : Nat} (h : a ≤ b) :
    crsPrimarySkillPoints a ≤ crsPrimarySkillPoints b := by
  unfold crsPrimarySkillPoints; split_ifs <;> omega

theorem crsSecondarySkillPoints_mono {a b : Nat} (h : a ≤ b) :
    crsSecondarySkillPoints a ≤ crsSecondarySkillPoints b := by
  unfold crsSecondarySkillPoints; split_ifs <;> omega

theorem crs_language_primary_mono {c d : Clb} (h : clbLE c d) :
    crs_language_primary c ≤ crs_language_primary d := by
  obtain ⟨h1, h2, h3, h4⟩ := h
  unfold crs_language_primary
  have := crsPrimarySkillPoints_mono h1
  have := crsPrimarySkillPoints_mono h2
  have := crsPrimarySkillPoints_mono h3
  have := crsPrimarySkillPoints_mono h4
  omega

theorem crs_language_secondary_mono {c d : Clb} (h : clbLE c d) :
    crs_language_secondary c ≤ crs_language_secondary d := by
  obtain ⟨h1, h2, h3, h4⟩ := h
  unfold crs_language_secondary
  have := crsSecondarySkillPoints_mono h1
  have := crsSecondarySkillPoints_mono h2
  have := crsSecondarySkillPoints_mono h3
  have := crsSecondarySkillPoints_mono h4
  omega

theorem transferTier_mono_strong : ∀ (e : Edu) (s1 s2 : Bool),
    (s1 = true → s2 = true) → transferTier e s1 ≤ transferTier e s2 := by decide

theorem transfer_education_language_mono_clb (e : Edu) {c d : Clb} (h : clbLE c d) :
    transfer_education_language e c ≤ transfer_education_language e d := by
  have hm := minClb_mono h
  unfold transfer_education_language has_all_primary_at_least
  split_ifs with hc hd hd
  · exact transferTier_mono_strong e _ _ (by
      simp only [decide_eq_true_eq]; omega)
  · simp only [decide_eq_true_eq] at hc hd; omega
  · exact Nat.zero_le _
  · exact Nat.le_refl 0

theorem transfer_foreign_work_language_mono_clb (fy : Nat) {c d : Clb} (h : clbLE c d) :
    transfer_foreign_work_language fy c ≤ transfer_foreign_work_language fy d := by
  have hm := minClb_mono h
  unfold transfer_foreign_work_language has_all_primary_at_least
  simp only [decide_eq_true_eq]
  split_ifs <;> omega

theorem transfer_foreign_work_language_mono_fy {fy1 fy2 : Nat} (h : fy1 ≤ fy2) (c : Clb) :
    transfer_foreign_work_language fy1 c ≤ transfer_foreign_work_language fy2 c := by
  unfold transfer_foreign_work_language
  cases hstrong : has_all_primary_at_least c 9 <;>
    simp only [hstrong] <;> split_ifs <;> omega

theorem bonus_points_mono_english {c d : Clb} (h : clbLE c d) (f : Clb)
    (pnp ce : Bool) (job : Option String) :
    bonus_points c f pnp ce job ≤ bonus_points d f pnp ce job := by
  have hm := minClb_mono h
  unfold bonus_points has_all_primary_at_least
  simp only [decide_eq_true_eq]
  split_ifs <;> omega

theorem bonus_points_mono_french (e : Clb) {f g : Clb} (h : clbLE f g)
    (pnp ce : Bool) (job : Option String) :
    bonus_points e f pnp ce job ≤ bonus_points e g pnp ce job := by
  have hm := minClb_mono h
  unfold bonus_points has_all_primary_at_least
  simp only [decide_eq_true_eq]
  split_ifs <;> omega

theorem skill_transferability_mono_clb (e : Edu) (fy : Nat) {c d : Clb} (h : clbLE c d) :
    skill_transferability e fy c ≤ skill_transferability e fy d := by
  unfold skill_transferability
  have := transfer_education_language_mono_clb e h
  have := transfer_foreign_work_language_mono_clb fy h
  omega

theorem compute_crs_mono_english {c d : Clb} (h : clbLE c d) (f : Clb) (fy : Nat)
    (pnp ce : Bool) (job : Option String) (edu : Option Edu) :
    (compute_crs c f fy pnp ce job edu).total ≤ (compute_crs d f fy pnp ce job edu).total := by
  rw [compute_crs_total_eq, compute_crs_total_eq]
  have := crs_language_primary_mono h
  have := skill_transferability_mono_clb (edu.getD EDUCATION) fy h
  have := bonus_points_mono_english h f pnp ce job
  omega

theorem compute_crs_mono_french (e : Clb) {f g : Clb} (h : clbLE f g) (fy : Nat)
    (pnp ce : Bool) (job : Option String) (edu : Option Edu) :
    (compute_crs e f fy pnp ce job edu).total ≤ (compute_crs e g fy pnp ce job edu).total := by
  rw [compute_crs_total_eq, compute_crs_total_eq]
  have := crs_language_secondary_mono h
  have := bonus_points_mono_french e h pnp ce job
  omega

theorem compute_crs_mono_fy (e f : Clb) {fy1 fy2 : Nat} (h : fy1 ≤ fy2)
    (pnp ce : Bool) (job : Option String) (edu : Option Edu) :
    (compute_crs e f fy1 pnp ce job edu).total ≤ (compute_crs e f fy2 pnp ce job edu).total := by
  rw [compute_crs_total_eq, compute_crs_total_eq]
  have h1 : crs_foreign_work fy1 = 0 := rfl
  have h2 : crs_foreign_work fy2 = 0 := rfl
  have h3 : skill_transferability (edu.getD EDUCATION) fy1 e
      ≤ skill_transferability (edu.getD EDUCATION) fy2 e := by
    unfold skill_transferability
    have := transfer_foreign_work_language_mono_fy h e
    omega
  omega

theorem compute_crs_mono_pnp (e f : Clb) (fy : Nat) (ce : Bool)
    (job : Option String) (edu : Option Edu) :
    (compute_crs e f fy false ce job edu).total ≤ (compute_crs e f fy true ce job edu).total := by
  rw [compute_crs_total_eq, compute_crs_total_eq]
  have : bonus_points e f false ce job ≤ bonus_points e f true ce job := by
    unfold bonus_points; simp
  omega

theorem compute_crs_mono_ce (e f : Clb) (fy : Nat) (pnp : Bool)
    (job : Option String) (edu : Option Edu) :
    (compute_crs e f fy pnp false job edu).total ≤ (compute_crs e f fy pnp true job edu).total := by
  rw [compute_crs_total_eq, compute_crs_total_eq]
  have : bonus_points e f pnp false job ≤ bonus_points e f pnp true job := by
    unfold bonus_points; simp
  omega

theorem transferTier_mono_succ : ∀ e t : Edu, next_education_level e = some t →
    ∀ s : Bool, transferTier e s ≤ transferTier t s := by decide

theorem crs_education_mono_succ : ∀ e t : Edu, next_education_level e = some t →
    crs_education e ≤ crs_education t := by decide

theorem compute_crs_mono_edu_succ (e f : Clb) (fy : Nat) (pnp ce : Bool)
    (job : Option String) {a b : Edu} (h : next_education_level a = some b) :
    (compute_crs e f fy pnp ce job (some a)).total
      ≤ (compute_crs e f fy pnp ce job (some b)).total := by
  rw [compute_crs_total_eq, compute_crs_total_eq]
  have h1 := crs_education_mono_succ a b h
  have h2 : skill_transferability a fy e ≤ skill_transferability b fy e := by
    unfold skill_transferability transfer_education_language
    have := transferTier_mono_succ a b h (has_all_primary_at_least e 9)
    split_ifs <;> omega
  simp only [Option.getD_some]
  omega

/-- The delta reported for the English hypothetical is always the CRS
total of the boosted profile minus the CRS total of the baseline. -/
theorem delta_english_delta_eq (e f : Clb) (fy : Nat) (pnp ce : Bool)
    (job : Option String) :
    (delta_english_next_clb e f fy pnp ce job).delta
      = ((compute_crs (boostClb e (next_clb_target e 10).1) f fy pnp ce job none).total : Int)
        - ((compute_crs e f fy pnp ce job none).total : Int) := by
  by_cases h : ((next_clb_target e 10).2).isEmpty
  · have h1 := next_clb_target_empty e h
    simp only [delta_english_next_clb, h, if_true, h1, boost_min_self]
    omega
  · simp [delta_english_next_clb, h]

/-- The delta reported for the French hypothetical is always the CRS
total of the boosted profile minus the CRS total of the baseline. -/
theorem delta_french_delta_eq (e f : Clb) (fy : Nat) (pnp ce : Bool)
    (job : Option String) :
    (delta_french_next_clb e f fy pnp ce job).delta
      = ((compute_crs e (((next_relevant_french_target f).1).elim f (boostClb f))
            fy pnp ce job none).total : Int)
        - ((compute_crs e f fy pnp ce job none).total : Int) := by
  rcases hopt : next_relevant_french_target f with ⟨tOpt, skills⟩
  cases tOpt with
  | none =>
    simp only [delta_french_next_clb, hopt, Option.elim]
    omega
  | some t =>
    simp only [delta_french_next_clb, hopt, Option.elim]

/-- The delta reported for the education hypothetical is always the CRS
total at the successor level (or the same level at the top) minus the
CRS total at the current level. -/
theorem delta_education_delta_eq (edu : Edu) (e f : Clb) (fy : Nat) (pnp ce : Bool)
    (job : Option String) :
    (delta_education_next_level edu e f fy pnp ce job).delta
      = ((compute_crs e f fy pnp ce job (some ((next_education_level edu).getD edu))).total : Int)
        - ((compute_crs e f fy pnp ce job (some edu)).total : Int) := by
  cases hopt : next_education_level edu with
  | none =>
    simp only [delta_education_next_level, hopt, Option.getD_none]
    omega
  | some t =>
    simp only [delta_education_next_level, hopt, Option.getD_some]

/-- Adding a year of foreign work past the 3-year transferability cap
does not change the CRS total. -/
theorem compute_crs_fy_succ_of_ge3 (e f : Clb) {fy : Nat} (h : 3 ≤ fy)
    (pnp ce : Bool) (job : Option String) (edu : Option Edu) :
    (compute_crs e f (fy + 1) pnp ce job edu).total
      = (compute_crs e f fy pnp ce job edu).total := by
  rw [compute_crs_total_eq, compute_crs_total_eq]
  have h1 : crs_foreign_work (fy + 1) = 0 := rfl
  have h2 : crs_foreign_work fy = 0 := rfl
  have h3 : transfer_foreign_work_language (fy + 1) e = transfer_foreign_work_language fy e := by
    unfold transfer_foreign_work_language
    have hn1 : ¬ (fy + 1 < 1) := by omega
    have hn2 : ¬ (fy < 1) := by omega
    simp only [hn1, hn2, if_false, show 3 ≤ fy + 1 by omega, h, if_true]
  have h4 : skill_transferability (edu.getD EDUCATION) (fy + 1) e
      = skill_transferability (edu.getD EDUCATION) fy e := by
    unfold skill_transferability; rw [h3]
  omega

/-- The delta reported for the plus-one-year-work hypothetical is always
the CRS total at `fy + 1` years minus the CRS total at `fy` years. -/
theorem delta_work_delta_eq (e f : Clb) (fy : Nat) (pnp ce : Bool)
    (job : Option String) :
    (delta_plus_one_year_work e f fy pnp ce job).delta
      = ((compute_crs e f (fy + 1) pnp ce job none).total : Int)
        - ((compute_crs e f fy pnp ce job none).total : Int) := by
  by_cases h : 3 ≤ fy
  · simp only [delta_plus_one_year_work, h, if_true,
      compute_crs_fy_succ_of_ge3 e f h pnp ce job none]
    omega
  · simp [delta_plus_one_year_work, h]

/-- Claim C1 (amended): each of the six hypothetical improvements reports
delta = CRS total of the profile with exactly that factor improved minus
the CRS total of a baseline; for the raise-English, raise-French,
education and plus-one-year-work hypotheticals the baseline is exactly
the profile passed in, while for the provincial-nomination and
Canadian-education hypotheticals the baseline is the profile with that
one flag forced to `false` (the source hardcodes the current flag). -/
theorem crs_delta_decomposition (e f : Clb) (fy : Nat) (pnp ce : Bool)
    (job : Option String) (edu : Edu) :
    ((delta_english_next_clb e f fy pnp ce job).delta
      = ((compute_crs (boostClb e (next_clb_target e 10).1) f fy pnp ce job none).total : Int)
        - ((compute_crs e f fy pnp ce job none).total : Int))
    ∧ ((delta_french_next_clb e f fy pnp ce job).delta
      = ((compute_crs e (((next_relevant_french_target f).1).elim f (boostClb f))
            fy pnp ce job none).total : Int)
        - ((compute_crs e f fy pnp ce job none).total : Int))
    ∧ ((delta_education_next_level edu e f fy pnp ce job).delta
      = ((compute_crs e f fy pnp ce job (some ((next_education_level edu).getD edu))).total : Int)
        - ((compute_crs e f fy pnp ce job (some edu)).total : Int))
    ∧ ((delta_plus_one_year_work e f fy pnp ce job).delta
      = ((compute_crs e f (fy + 1) pnp ce job none).total : Int)
        - ((compute_crs e f fy pnp ce job none).total : Int))
    ∧ ((delta_pnp ce e f fy job).delta
      = ((compute_crs e f fy true ce job none).total : Int)
        - ((compute_crs e f fy false ce job none).total : Int))
    ∧ ((delta_canadian_education e f fy pnp job).delta
      = ((compute_crs e f fy pnp true job none).total : Int)
        - ((compute_crs e f fy pnp false job none).total : Int)) :=
  ⟨delta_english_delta_eq e f fy pnp ce job,
   delta_french_delta_eq e f fy pnp ce job,
   delta_education_delta_eq edu e f fy pnp ce job,
   delta_work_delta_eq e f fy pnp ce job,
   rfl, rfl⟩

/-- Claim C1, counterexample to the original statement: for a baseline
profile whose provincial-nomination flag is already true, the reported
delta of the PNP hypothetical (600) is not the CRS total of the improved
profile minus the CRS total of the unmodified baseline (0): `delta_pnp`
hardcodes the baseline flag to false. -/
theorem delta_pnp_ignores_baseline_flag :
    (delta_pnp false zero_clb zero_clb 0 none).delta ≠
      ((compute_crs zero_clb zero_clb 0 true false none none).total : Int)
        - ((compute_crs zero_clb zero_clb 0 true false none none).total : Int) := by
  decide

/-- Claim C10: every one of the six delta functions reports a
non-negative delta on any baseline with levels in [0, 10]. -/
theorem crs_deltas_nonneg (e f : Clb) (fy : Nat) (pnp ce : Bool)
    (job : Option String) (edu : Edu)
    (he : e.listening ≤ 10 ∧ e.reading ≤ 10 ∧ e.writing ≤ 10 ∧ e.speaking ≤ 10)
    (hf : f.listening ≤ 10 ∧ f.reading ≤ 10 ∧ f.writing ≤ 10 ∧ f.speaking ≤ 10) :
    0 ≤ (delta_english_next_clb e f fy pnp ce job).delta
    ∧ 0 ≤ (delta_french_next_clb e f fy pnp ce job).delta
    ∧ 0 ≤ (delta_education_next_level edu e f fy pnp ce job).delta
    ∧ 0 ≤ (delta_plus_one_year_work e f fy pnp ce job).delta
    ∧ 0 ≤ (delta_pnp ce e f fy job).delta
    ∧ 0 ≤ (delta_canadian_education e f fy pnp job).delta := by
  refine ⟨?_, ?_, ?_, ?_, ?_, ?_⟩
  · rw [delta_english_delta_eq]
    have := compute_crs_mono_english (clbLE_boost e (next_clb_target e 10).1) f fy pnp ce job none
    omega
  · rw [delta_french_delta_eq]
    cases hopt : (next_relevant_french_target f).1 with
    | none => simp [Option.elim]
    | some t =>
      simp only [Option.elim]
      have := compute_crs_mono_french e (clbLE_boost f t) fy pnp ce job none
      omega
  · rw [delta_education_delta_eq]
    cases hopt : next_education_level edu with
    | none => simp [Option.getD_none]
    | some t =>
      simp only [Option.getD_some]
      have := compute_crs_mono_edu_succ e f fy pnp ce job hopt
      omega
  · rw [delta_work_delta_eq]
    have := compute_crs_mono_fy e f (show fy ≤ fy + 1 by omega) pnp ce job none
    omega
  · show 0 ≤ ((compute_crs e f fy true ce job none).total : Int)
      - ((compute_crs e f fy false ce job none).total : Int)
    have := compute_crs_mono_pnp e f fy ce job none
    omega
  · show 0 ≤ ((compute_crs e f fy pnp true job none).total : Int)
      - ((compute_crs e f fy pnp false job none).total : Int)
    have := compute_crs_mono_ce e f fy pnp job none
    omega

/-- Claim C10, witness instantiation. -/
theorem crs_deltas_nonneg_witness :
    0 ≤ (delta_english_next_clb ⟨7, 8, 9, 9⟩ ⟨0, 0, 0, 0⟩ 1 false false none).delta
    ∧ 0 ≤ (delta_french_next_clb ⟨7, 8, 9, 9⟩ ⟨0, 0, 0, 0⟩ 1 false false none).delta
    ∧ 0 ≤ (delta_education_next_level .bachelor ⟨7, 8, 9, 9⟩ ⟨0, 0, 0, 0⟩ 1 false false none).delta
    ∧ 0 ≤ (delta_plus_one_year_work ⟨7, 8, 9, 9⟩ ⟨0, 0, 0, 0⟩ 1 false false none).delta
    ∧ 0 ≤ (delta_pnp false ⟨7, 8, 9, 9⟩ ⟨0, 0, 0, 0⟩ 1 none).delta
    ∧ 0 ≤ (delta_canadian_education ⟨7, 8, 9, 9⟩ ⟨0, 0, 0, 0⟩ 1 false none).delta :=
  crs_deltas_nonneg ⟨7, 8, 9, 9⟩ ⟨0, 0, 0, 0⟩ 1 false false none .bachelor
    (by decide) (by decide)

/-- Claim C2: FSW eligibility passes exactly when the total is at least
67 and both hard gates hold (minimum primary level 7+ and at least one
year of foreign work); the issues list is empty exactly when both gates
hold, so a gate violation forces a non-empty issues list and a fail even
when the total reaches 67. -/
theorem fsw_pass_characterization (age : Nat) (edu : Edu) (p s : Clb)
    (fy : Nat) (rel : Bool) :
    ((fsw_eligibility age edu p s fy rel).pass = true ↔
      (67 ≤ (fsw_eligibility age edu p s fy rel).total ∧ 7 ≤ minClb p ∧ 1 ≤ fy))
    ∧ ((fsw_eligibility age edu p s fy rel).issues = [] ↔ (7 ≤ minClb p ∧ 1 ≤ fy)) := by
  by_cases h1 : minClb p < 7 <;> by_cases h2 : fy < 1 <;>
    simp [fsw_eligibility, h1, h2] <;> omega

/-- Claim C3: the skill-transferability total is capped at 100, and a
post-secondary+ education tier with 3+ foreign years and all primary
skills at level 9+ reaches exactly 100. -/
theorem skill_transferability_cap (e : Edu) (fy : Nat) (c : Clb) :
    skill_transferability e fy c ≤ 100
    ∧ ((e = .bachelor ∨ e = .two_or_more ∨ e = .masters
        ∨ e = .professional_degree ∨ e = .phd) →
      3 ≤ fy → 9 ≤ minClb c → skill_transferability e fy c = 100) := by
  constructor
  · exact Nat.min_le_right _ _
  · intro he h3 h9
    have h7 : has_all_primary_at_least c 7 = true := by
      simp only [has_all_primary_at_least, decide_eq_true_eq]; omega
    have h9b : has_all_primary_at_least c 9 = true := by
      simp only [has_all_primary_at_least, decide_eq_true_eq]; omega
    have htel : transfer_education_language e c = 50 := by
      unfold transfer_education_language
      rw [h7, h9b]
      rcases he with h | h | h | h | h <;> subst h <;> simp [transferTier]
    have htfw : transfer_foreign_work_language fy c = 50 := by
      unfold transfer_foreign_work_language
      have hn : ¬ (fy < 1) := by omega
      simp only [hn, if_false, h7, h9b, h3, if_true]
    unfold skill_transferability
    rw [htel, htfw]
    rfl

/-- Claim C3, witness instantiation: bachelor, 3 foreign years, all
skills at 9 gives exactly 100. -/
theorem skill_transferability_cap_witness :
    skill_transferability .bachelor 3 ⟨9, 9, 9, 9⟩ = 100 :=
  (skill_transferability_cap .bachelor 3 ⟨9, 9, 9, 9⟩).2
    (Or.inl rfl) (by omega) (by decide)

/-- Claim C4: on a table of (threshold, level) pairs sorted from highest
threshold to lowest, the conversion returns the level of the first entry
whose threshold the score meets or exceeds, and 0 when the score is
below every threshold. -/
theorem convert_with_table_spec (score : ℚ) (table : List (ℚ × Nat))
    (hsorted : table.Chain' (fun a b => b.1 ≤ a.1)) :
    (∀ p : ℚ × Nat, table.find? (fun q => decide (q.1 ≤ score)) = some p →
      convert_with_table score table = p.2)
    ∧ ((∀ p ∈ table, score < p.1) → convert_with_table score table = 0) := by
  clear hsorted
  induction table with
  | nil =>
    constructor
    · intro p hp; simp at hp
    · intro _; rfl
  | cons hd tl ih =>
    obtain ⟨t, l⟩ := hd
    constructor
    · intro p hp
      by_cases h : t ≤ score
      · rw [List.find?_cons_of_pos _ (by simpa using h)] at hp
        injection hp with hp
        subst hp
        simp [convert_with_table, h]
      · rw [List.find?_cons_of_neg _ (by simpa using h)] at hp
        simpa [convert_with_table, h] using ih.1 p hp
    · intro hall
      have ht := hall (t, l) (List.mem_cons_self _ _)
      have h : ¬ (t ≤ score) := by exact not_le.mpr ht
      simpa [convert_with_table, h] using
        ih.2 (fun p hp => hall p (List.mem_cons_of_mem _ hp))

/-- Claim C4, witness instantiation on a two-row table. -/
theorem convert_with_table_spec_witness :
    convert_with_table 7 [((8 : ℚ), 9), ((6 : ℚ), 7)] = 7 :=
  (convert_with_table_spec 7 [((8 : ℚ), 9), ((6 : ℚ), 7)] (by norm_num)).1
    ((6 : ℚ), 7) (by norm_num [List.find?])

/-- Claim C5: for the raise-English hypothetical on levels within the
0-10 scale, when all four skills already sit at the scale maximum 10 the
delta is 0 and the condition notes saturation; otherwise the boost
target is the current minimum level plus one capped at 10 and every
skill below the target is raised to it (the rest are unchanged). -/
theorem english_next_level_rule (e f : Clb) (fy : Nat) (pnp ce : Bool)
    (job : Option String)
    (hb : e.listening ≤ 10 ∧ e.reading ≤ 10 ∧ e.writing ≤ 10 ∧ e.speaking ≤ 10) :
    (e = ⟨10, 10, 10, 10⟩ →
      (delta_english_next_clb e f fy pnp ce job).delta = 0
      ∧ (delta_english_next_clb e f fy pnp ce job).condition
          = "English already at max CLB 10.")
    ∧ (e ≠ ⟨10, 10, 10, 10⟩ →
      (next_clb_target e 10).1 = min (minClb e + 1) 10
      ∧ (e.listening < (next_clb_target e 10).1 →
          (boostClb e (next_clb_target e 10).1).listening = (next_clb_target e 10).1)
      ∧ ((next_clb_target e 10).1 ≤ e.listening →
          (boostClb e (next_clb_target e 10).1).listening = e.listening)
      ∧ (e.reading < (next_clb_target e 10).1 →
          (boostClb e (next_clb_target e 10).1).reading = (next_clb_target e 10).1)
      ∧ ((next_clb_target e 10).1 ≤ e.reading →
          (boostClb e (next_clb_target e 10).1).reading = e.reading)
      ∧ (e.writing < (next_clb_target e 10).1 →
          (boostClb e (next_clb_target e 10).1).writing = (next_clb_target e 10).1)
      ∧ ((next_clb_target e 10).1 ≤ e.writing →
          (boostClb e (next_clb_target e 10).1).writing = e.writing)
      ∧ (e.speaking < (next_clb_target e 10).1 →
          (boostClb e (next_clb_target e 10).1).speaking = (next_clb_target e 10).1)
      ∧ ((next_clb_target e 10).1 ≤ e.speaking →
          (boostClb e (next_clb_target e 10).1).speaking = e.speaking)) := by
  constructor
  · intro he
    subst he
    exact ⟨rfl, rfl⟩
  · intro hne
    have hmin : minClb e < 10 := by
      by_contra hge
      apply hne
      obtain ⟨hl, hr, hw, hs⟩ := hb
      have h1 := minClb_le_listening e
      have h2 := minClb_le_reading e
      have h3 := minClb_le_writing e
      have h4 := minClb_le_speaking e
      obtain ⟨l, r, w, s⟩ := e
      simp only [Clb.mk.injEq]
      simp only at hl hr hw hs h1 h2 h3 h4
      omega
    have hcond : ¬ (10 ≤ minClb e) := by omega
    refine ⟨by simp [next_clb_target, hcond], ?_⟩
    refine ⟨?_, ?_, ?_, ?_, ?_, ?_, ?_, ?_⟩ <;>
      intro h <;> simp [boostClb] <;> omega

/-- Claim C5, witness instantiation: the saturated profile reports delta
0 with the saturation note, and a non-saturated profile gets target
min + 1. -/
theorem english_next_level_rule_witness :
    ((delta_english_next_clb ⟨10, 10, 10, 10⟩ zero_clb 0 false false none).delta = 0
      ∧ (delta_english_next_clb ⟨10, 10, 10, 10⟩ zero_clb 0 false false none).condition
          = "English already at max CLB 10.")
    ∧ (next_clb_target ⟨7, 8, 9, 9⟩ 10).1 = min (minClb ⟨7, 8, 9, 9⟩ + 1) 10 :=
  ⟨(english_next_level_rule ⟨10, 10, 10, 10⟩ zero_clb 0 false false none
      (by decide)).1 rfl,
   ((english_next_level_rule ⟨7, 8, 9, 9⟩ zero_clb 0 false false none
      (by decide)).2 (by decide)).1⟩

/-- Claim C6: both education point tables are monotonically
non-decreasing along the 9-level education ordering. -/
theorem edu_points_monotone : ∀ a b : Edu, eduIdx a ≤ eduIdx b →
    FSW_EDU_POINTS a ≤ FSW_EDU_POINTS b ∧ CRS_EDU_POINTS a ≤ CRS_EDU_POINTS b := by
  decide

/-- Claim C6, witness instantiation: secondary precedes phd. -/
theorem edu_points_monotone_witness :
    FSW_EDU_POINTS .secondary ≤ FSW_EDU_POINTS .phd
    ∧ CRS_EDU_POINTS .secondary ≤ CRS_EDU_POINTS .phd :=
  edu_points_monotone .secondary .phd (by decide)

/-- Claim C7: when an exam is marked not-taken, the skill-level mapping
used for scoring is all zeros, whatever raw scores were supplied. -/
theorem exam_not_taken_zero_levels (eng fr : List (String × ℚ)) :
    english_clb_used false eng = ⟨0, 0, 0, 0⟩
    ∧ french_clb_used false fr = ⟨0, 0, 0, 0⟩ :=
  ⟨rfl, rfl⟩

/-- Claim C8, counterexample to the original statement: scoring with the
unrecognized job-offer category "banana" does not fail fast; the source
silently awards 0 points (only the education path raises). -/
theorem job_offer_silent_default :
    job_offer_points (some "banana") = 0
    ∧ "banana" ≠ "teer00" ∧ "banana" ≠ "teer123" ∧ "banana" ≠ "" := by
  refine ⟨rfl, ?_, ?_, ?_⟩ <;> decide

/-- Claim C8 (amended): an unrecognized education level fails fast with
an error naming the invalid input, and a recognized one yields a point
value; an unrecognized job-offer category does not raise but silently
scores 0 (only "teer00" and "teer123" score points). -/
theorem invalid_enum_handling (s : String) :
    (s ∉ EDUCATION_LEVELS →
      crs_education_str s = .error ("Invalid education level: " ++ s))
    ∧ (s ∈ EDUCATION_LEVELS → ∃ n, crs_education_str s = .ok n)
    ∧ (s ≠ "teer00" → s ≠ "teer123" → job_offer_points (some s) = 0) := by
  refine ⟨?_, ?_, ?_⟩
  · intro h
    simp [crs_education_str, h]
  · intro h
    refine ⟨(parseEducation s).elim 0 CRS_EDU_POINTS, ?_⟩
    simp [crs_education_str, h]
  · intro h1 h2
    simp [job_offer_points, h1, h2]

/-- Claim C8, witness instantiation at the strings "banana" and
"bachelor". -/
theorem invalid_enum_handling_witness :
    crs_education_str "banana" = .error "Invalid education level: banana"
    ∧ (∃ n, crs_education_str "bachelor" = .ok n)
    ∧ job_offer_points (some "banana") = 0 :=
  ⟨(invalid_enum_handling "banana").1 (by decide),
   (invalid_enum_handling "bachelor").2.1 (by decide),
   (invalid_enum_handling "banana").2.2 (by decide) (by decide)⟩

/-- Claim C9, counterexample to the original statement: with no band
scores supplied at all, a non-native applicant who has taken the exam
fails the check even though every supplied band (vacuously) meets the
minimum, so the stated equivalence is false at this input. -/
theorem english_ok_empty_bands :
    ¬ (((english_ok false true []).1 = true) ↔
      (false = true ∨ (true = true
        ∧ ∀ p ∈ ([] : List (String × ℚ)), IELTS_COMPONENT_MIN ≤ p.2))) := by
  intro h
  have hfalse : (english_ok false true []).1 = false := rfl
  have := h.mpr (Or.inr ⟨rfl, by simp⟩)
  rw [hfalse] at this
  exact Bool.false_ne_true this

/-- The boolean component of `english_ok`, as a single expression. -/
theorem english_ok_fst (native exam_done : Bool) (bands : List (String × ℚ)) :
    (english_ok native exam_done bands).1
      = (native || (exam_done && !bands.isEmpty
          && (bands.filter (fun p => p.2 < IELTS_COMPONENT_MIN)).isEmpty)) := by
  cases native <;> cases exam_done <;>
    simp only [english_ok, Bool.not_true, Bool.not_false, Bool.false_eq_true,
      Bool.true_and, Bool.false_and, Bool.true_or, Bool.false_or, if_true, if_false] <;>
    try rfl
  by_cases hb : bands.isEmpty <;> simp only [hb, Bool.not_true, Bool.not_false,
      Bool.false_eq_true, Bool.true_eq_false, if_true, if_false, Bool.false_and,
      Bool.true_and] <;> try rfl
  by_cases hl : (bands.filter (fun p => decide (p.2 < IELTS_COMPONENT_MIN))).isEmpty <;>
    simp [hl]

/-- Claim C9 (amended): the MBA english check is satisfied exactly when
the applicant is native, or the exam has been taken, at least one band
is supplied, and every supplied band is at least 6.0; in particular a
native applicant passes the english check even with no exam taken. -/
theorem english_ok_characterization (native exam_done : Bool)
    (bands : List (String × ℚ)) :
    ((english_ok native exam_done bands).1 = true ↔
      (native = true ∨ (exam_done = true ∧ bands ≠ []
        ∧ ∀ p ∈ bands, IELTS_COMPONENT_MIN ≤ p.2)))
    ∧ (native = true → (english_ok native exam_done bands).1 = true) := by
  have hmain : (english_ok native exam_done bands).1 = true ↔
      (native = true ∨ (exam_done = true ∧ bands ≠ []
        ∧ ∀ p ∈ bands, IELTS_COMPONENT_MIN ≤ p.2)) := by
    rw [english_ok_fst]
    simp only [Bool.or_eq_true, Bool.and_eq_true, Bool.not_eq_true',
      List.isEmpty_iff, List.filter_eq_nil_iff, decide_eq_true_eq, not_lt,
      and_assoc]
    constructor
    · rintro (h | ⟨h1, h2, h3⟩)
      · exact Or.inl h
      · refine Or.inr ⟨h1, ?_, h3⟩
        intro hnil
        rw [hnil] at h2
        exact absurd h2 (by decide)
    · rintro (h | ⟨h1, h2, h3⟩)
      · exact Or.inl h
      · refine Or.inr ⟨h1, ?_, h3⟩
        cases hb : bands.isEmpty
        · rfl
        · exact absurd (List.isEmpty_iff.mp hb) h2
  exact ⟨hmain, fun h => hmain.mpr (Or.inl h)⟩

/-- Claim C9, witness instantiation: a native applicant with no exam
taken and no bands still passes the english check. -/
theorem english_ok_characterization_witness :
    (english_ok true false []).1 = true :=
  (english_ok_characterization true false []).2 rfl
